import Mathlib

/-!
Verification of the ReefNet Sensus Ultra dive-log parser
(src/src/reefnet_sensusultra_parser.c) against its natural-language
specification.

The embedding is shallow: the parser struct becomes a Lean structure, the
installed buffer is a list of bytes, C `unsigned int` arithmetic is natural
number arithmetic reduced modulo 2 ^ 32 where the code can overflow, and C
`double` arithmetic is modelled exactly over the rationals.  Every while loop
of the source is translated to a structurally recursive function on an
explicit fuel argument (each loop advances its offset by at least one byte per
iteration, so `data.length - off` is always enough fuel); a wrapper supplies
that fuel and an unfolding lemma recovers the loop-shaped recurrence.  This
keeps every definition computable by the kernel, so concrete witnesses can be
checked by `decide`.
-/

namespace Reefnet

/-- Status codes of the parser operations (dc_status_t). -/
inductive DcStatus where
  | success
  | dataformat
  | unsupported
  | invalidargs
  | nomemory
deriving DecidableEq, Repr

/-- Modelled from the spec: the field kinds of the generic field query
(parser_field_type_t is declared in a header that is not under src/).  The
spec names DIVE_TIME, MAX_DEPTH and GASMIX_COUNT and speaks of "any other
field kind", represented here by the remaining constructors. -/
inductive FieldType where
  | divetime
  | maxdepth
  | gasmix_count
  | avgdepth
  | gasmix
deriving DecidableEq, Repr

/-- A value written through the void output pointer of get_field: either an
unsigned int or a double (modelled as a rational). -/
inductive FieldValue where
  | uint (n : ℕ)
  | dbl (q : ℚ)
deriving DecidableEq, Repr

/-- One callback emission of samples_foreach, tagged with its sample type. -/
inductive SampleEvent where
  | time (t : ℕ)
  | temperature (q : ℚ)
  | depth (q : ℚ)
deriving DecidableEq, Repr

/-- Modelled from the spec: the BAR constant of units.h (not under src/),
the standard pressure unit.  No claim depends on its numeric value. -/
def BAR : ℚ := 100000

/-- Modelled from the spec: standard atmospheric pressure, the default
atmospheric calibration (units.h, not under src/). -/
def ATM : ℚ := 101325

/-- Modelled from the spec: gravitational acceleration used in the default
hydrostatic calibration 1025.0 * GRAVITY (units.h, not under src/). -/
def GRAVITY : ℚ := 980665 / 100000

/-- A byte of the installed buffer.  Reads are reduced modulo 256, the range
of the C unsigned char the buffer is made of. -/
def byteAt (data : List ℕ) (i : ℕ) : ℕ := data.getD i 0 % 256

/-- array_uint16_le (array.h): 2-byte little-endian read at offset i. -/
def array_uint16_le (data : List ℕ) (i : ℕ) : ℕ :=
  byteAt data i + 256 * byteAt data (i + 1)

/-- array_uint32_le (array.h): 4-byte little-endian read at offset i. -/
def array_uint32_le (data : List ℕ) (i : ℕ) : ℕ :=
  byteAt data i + 256 * byteAt data (i + 1) + 65536 * byteAt data (i + 2) +
    16777216 * byteAt data (i + 3)

/-- The parser state: reefnet_sensusultra_parser_t together with the
installed buffer view (data/size) held by the parser base object.  Doubles
are modelled exactly as rationals. -/
structure SensusParser where
  atmospheric : ℚ
  hydrostatic : ℚ
  devtime : ℕ
  systime : ℤ
  cached : Bool
  divetime : ℕ
  maxdepth : ℕ
  data : List ℕ
deriving DecidableEq, Repr

/-- reefnet_sensusultra_parser_create: default calibration, the clock
synchronization pair (devtime is a uint32 parameter), an invalid cache and no
installed buffer. -/
def reefnet_sensusultra_parser_create (devtime : ℕ) (systime : ℤ) :
    SensusParser :=
  { atmospheric := ATM
    hydrostatic := 1025 * GRAVITY
    devtime := devtime % 2 ^ 32
    systime := systime
    cached := false
    divetime := 0
    maxdepth := 0
    data := [] }

/-- reefnet_sensusultra_parser_set_data: the source resets the three cache
fields and reports success; the installation of the buffer view itself is
done by the parser base class, whose code is not under src/ and is modelled
from the spec: set_data installs the caller's buffer. -/
def reefnet_sensusultra_parser_set_data (p : SensusParser) (buf : List ℕ) :
    DcStatus × SensusParser :=
  (DcStatus.success,
   { p with data := buf, cached := false, divetime := 0, maxdepth := 0 })

/-- reefnet_sensusultra_parser_set_calibration: unconditional overwrite of
the two calibration constants. -/
def reefnet_sensusultra_parser_set_calibration (p : SensusParser)
    (atmospheric hydrostatic : ℚ) : DcStatus × SensusParser :=
  (DcStatus.success,
   { p with atmospheric := atmospheric, hydrostatic := hydrostatic })

/-- memcmp of the 4 buffer bytes at off against the all-0xFF footer
sentinel. -/
def footerAt (data : List ℕ) (off : ℕ) : Bool :=
  byteAt data off == 255 && byteAt data (off + 1) == 255 &&
    byteAt data (off + 2) == 255 && byteAt data (off + 3) == 255

/-- memcmp of the 4 buffer bytes at off against the all-zero header
sentinel. -/
def headerAt (data : List ℕ) (off : ℕ) : Bool :=
  byteAt data off == 0 && byteAt data (off + 1) == 0 &&
    byteAt data (off + 2) == 0 && byteAt data (off + 3) == 0

/-- reefnet_sensusultra_parser_get_datetime, up to the tick value: the final
conversion of the ticks to a calendar date (dc_datetime_localtime) is not
under src/ and no claim depends on it, so the operation returns the status
together with the computed ticks in place of the datetime out-parameter.
devtime - timestamp is unsigned 32-bit subtraction in the source. -/
def reefnet_sensusultra_parser_get_datetime (p : SensusParser) :
    DcStatus × Option ℤ :=
  if p.data.length < 4 + 4 then (DcStatus.dataformat, none)
  else
    (DcStatus.success,
     some (p.systime -
       (((p.devtime + 2 ^ 32 - array_uint32_le p.data 4) % 2 ^ 32 : ℕ) : ℤ)))

/-- The aggregate scan loop of reefnet_sensusultra_parser_get_field on
explicit fuel: while at least 4 bytes remain at off and they are not the
footer sentinel, a unit whose 2-byte LE depth at off+2 reaches the threshold
bumps the sample count and the running maximum; then off advances by 4.
Returns (maxdepth, nsamples). -/
def aggLoopF : ℕ → List ℕ → ℕ → ℕ → ℕ → ℕ → ℕ × ℕ
  | 0, _, _, _, maxd, ns => (maxd, ns)
  | fuel + 1, data, threshold, off, maxd, ns =>
    if off + 4 ≤ data.length ∧ footerAt data off = false then
      let depth := array_uint16_le data (off + 2)
      aggLoopF fuel data threshold (off + 4)
        (if threshold ≤ depth then (if maxd < depth then depth else maxd)
         else maxd)
        (if threshold ≤ depth then ns + 1 else ns)
    else (maxd, ns)

/-- The aggregate scan loop with its fuel supplied. -/
def aggLoop (data : List ℕ) (threshold off maxd ns : ℕ) : ℕ × ℕ :=
  aggLoopF (data.length - off) data threshold off maxd ns

/-- reefnet_sensusultra_parser_get_field.  hasValue models whether the void
output pointer is non-null: the source only enters the switch when value is
non-null and otherwise returns success.  When the cache is invalid the scan
runs (and the cache fills) before the switch, whatever the requested field
kind is.  Returns (status, parser state after the call, value written). -/
def reefnet_sensusultra_parser_get_field (p : SensusParser) (ty : FieldType)
    (hasValue : Bool) : DcStatus × SensusParser × Option FieldValue :=
  if p.data.length < 20 then (DcStatus.dataformat, p, none)
  else
    let p' :=
      if p.cached then p
      else
        let interval := array_uint16_le p.data 8
        let threshold := array_uint16_le p.data 10
        let r := aggLoop p.data threshold 16 0 0
        { p with cached := true,
                 divetime := r.2 * interval % 2 ^ 32,
                 maxdepth := r.1 }
    if hasValue then
      match ty with
      | FieldType.divetime =>
          (DcStatus.success, p', some (FieldValue.uint p'.divetime))
      | FieldType.maxdepth =>
          (DcStatus.success, p',
           some (FieldValue.dbl
             (((p'.maxdepth : ℚ) * BAR / 1000 - p'.atmospheric) /
               p'.hydrostatic)))
      | FieldType.gasmix_count =>
          (DcStatus.success, p', some (FieldValue.uint 0))
      | _ => (DcStatus.unsupported, p', none)
    else (DcStatus.success, p', none)

/-- The sample decoding loop of reefnet_sensusultra_parser_samples_foreach on
explicit fuel: each 4-byte unit before the footer sentinel (or the buffer
end) emits TIME, then TEMPERATURE, then DEPTH.  time is an unsigned 32-bit
running total that starts at 0 and is incremented by interval before the
first emission. -/
def sampleLoopF : ℕ → List ℕ → ℚ → ℚ → ℕ → ℕ → ℕ → List SampleEvent
  | 0, _, _, _, _, _, _ => []
  | fuel + 1, data, atm, hyd, interval, off, t =>
    if off + 4 ≤ data.length ∧ footerAt data off = false then
      SampleEvent.time ((t + interval) % 2 ^ 32) ::
      SampleEvent.temperature
        ((array_uint16_le data off : ℚ) / 100 - 27315 / 100) ::
      SampleEvent.depth
        (((array_uint16_le data (off + 2) : ℚ) * BAR / 1000 - atm) / hyd) ::
      sampleLoopF fuel data atm hyd interval (off + 4) ((t + interval) % 2 ^ 32)
    else []

/-- The sample decoding loop with its fuel supplied. -/
def sampleLoop (data : List ℕ) (atm hyd : ℚ) (interval off t : ℕ) :
    List SampleEvent :=
  sampleLoopF (data.length - off) data atm hyd interval off t

/-- The record search loop of reefnet_sensusultra_parser_samples_foreach on
explicit fuel: a byte-by-byte scan for the four-zero-byte header sentinel; on
a match the 16-byte record header must fit (else DATAFORMAT), then the
samples of that single record are decoded and the loop breaks. -/
def outerScanF : ℕ → List ℕ → ℚ → ℚ → ℕ → DcStatus × List SampleEvent
  | 0, _, _, _, _ => (DcStatus.success, [])
  | fuel + 1, data, atm, hyd, off =>
    if off + 4 ≤ data.length then
      if headerAt data off = true then
        if data.length < off + 16 then (DcStatus.dataformat, [])
        else
          (DcStatus.success,
           sampleLoop data atm hyd (array_uint16_le data (off + 8))
             (off + 16) 0)
      else outerScanF fuel data atm hyd (off + 1)
    else (DcStatus.success, [])

/-- The record search loop with its fuel supplied. -/
def outerScan (data : List ℕ) (atm hyd : ℚ) (off : ℕ) :
    DcStatus × List SampleEvent :=
  outerScanF (data.length - off) data atm hyd off

/-- reefnet_sensusultra_parser_samples_foreach: the parser state is not
changed, so the operation returns the status and the list of callback
emissions in order. -/
def reefnet_sensusultra_parser_samples_foreach (p : SensusParser) :
    DcStatus × List SampleEvent :=
  outerScan p.data p.atmospheric p.hydrostatic 0

/-! ## Spec-side descriptions

The following definitions follow the words of the specification (and of the
claims derived from it); the theorems below compare the source-derived
operations above against them. -/

/-- The unit offsets visited by the scans as the spec describes them: from
off, stepping 4 bytes at a time, stopping when fewer than 4 bytes remain or
the next 4 bytes are the footer sentinel (fuelled version). -/
def unitOffsetsF : ℕ → List ℕ → ℕ → List ℕ
  | 0, _, _ => []
  | fuel + 1, data, off =>
    if off + 4 ≤ data.length ∧ footerAt data off = false then
      off :: unitOffsetsF fuel data (off + 4)
    else []

/-- The unit offsets visited by the scans, fuel supplied. -/
def unitOffsets (data : List ℕ) (off : ℕ) : List ℕ :=
  unitOffsetsF (data.length - off) data off

/-- The qualifying depths of the aggregate scan as the spec describes them:
the 2-byte LE depth at u+2 of every visited unit u (starting at offset 16),
kept iff it is at least the threshold read at offset 10. -/
def specQualifyingDepths (data : List ℕ) : List ℕ :=
  ((unitOffsets data 16).map fun u => array_uint16_le data (u + 2)).filter
    fun d => decide (array_uint16_le data 10 ≤ d)

/-- total_dive_seconds as the spec derives it: qualifying count times the
interval read at offset 8; the cache field holding it is a uint32. -/
def specDiveTime (data : List ℕ) : ℕ :=
  (specQualifyingDepths data).length * array_uint16_le data 8 % 2 ^ 32

/-- max_depth_raw as the spec derives it: the maximum qualifying depth, 0 if
none qualified. -/
def specMaxDepthRaw (data : List ℕ) : ℕ :=
  (specQualifyingDepths data).foldl Nat.max 0

/-- The record search as the spec describes it: the first offset, scanned
byte by byte, where at least 4 bytes remain and they are all zero (fuelled
version). -/
def findHeaderF : ℕ → List ℕ → ℕ → Option ℕ
  | 0, _, _ => none
  | fuel + 1, data, off =>
    if off + 4 ≤ data.length then
      if headerAt data off = true then some off
      else findHeaderF fuel data (off + 1)
    else none

/-- The first offset of a four-zero-byte header sentinel, fuel supplied. -/
def findHeader (data : List ℕ) (off : ℕ) : Option ℕ :=
  findHeaderF (data.length - off) data off

/-! ## Loop unfolding lemmas

Each fuelled loop is independent of its fuel once the fuel dominates
data.length - off, because every iteration advances off by at least one
byte.  From that, each wrapper satisfies the recurrence of the C while loop
it translates. -/

theorem unitOffsetsF_stop (data : List ℕ) (off : ℕ)
    (h : ¬(off + 4 ≤ data.length ∧ footerAt data off = false)) :
    ∀ fuel, unitOffsetsF fuel data off = [] := by
  intro fuel
  cases fuel with
  | zero => rfl
  | succ f => simp only [unitOffsetsF, if_neg h]

theorem unitOffsetsF_eq (data : List ℕ) :
    ∀ fuel off, data.length ≤ off + fuel →
      unitOffsetsF fuel data off = unitOffsets data off := by
  intro fuel
  induction fuel using Nat.strong_induction_on with
  | _ fuel ih =>
    intro off hle
    match fuel with
    | 0 =>
      have h0 : data.length - off = 0 := by omega
      unfold unitOffsets
      rw [h0]
    | fuel + 1 =>
      by_cases hc : off + 4 ≤ data.length ∧ footerAt data off = false
      · obtain ⟨m, hm⟩ : ∃ m, data.length - off = m + 1 :=
          ⟨data.length - off - 1, by omega⟩
        unfold unitOffsets
        rw [hm]
        simp only [unitOffsetsF, if_pos hc]
        rw [ih fuel (by omega) (off + 4) (by omega),
          ih m (by omega) (off + 4) (by omega)]
      · rw [unitOffsetsF_stop data off hc]
        unfold unitOffsets
        rw [unitOffsetsF_stop data off hc]

theorem unitOffsets_loop (data : List ℕ) (off : ℕ) :
    unitOffsets data off =
      if off + 4 ≤ data.length ∧ footerAt data off = false then
        off :: unitOffsets data (off + 4)
      else [] := by
  by_cases hc : off + 4 ≤ data.length ∧ footerAt data off = false
  · rw [if_pos hc]
    obtain ⟨m, hm⟩ : ∃ m, data.length - off = m + 1 :=
      ⟨data.length - off - 1, by omega⟩
    unfold unitOffsets
    rw [hm]
    simp only [unitOffsetsF, if_pos hc]
    rw [unitOffsetsF_eq data m (off + 4) (by omega)]
    rfl
  · rw [if_neg hc]
    exact unitOffsetsF_stop data off hc _

theorem aggLoopF_stop (data : List ℕ) (threshold off maxd ns : ℕ)
    (h : ¬(off + 4 ≤ data.length ∧ footerAt data off = false)) :
    ∀ fuel, aggLoopF fuel data threshold off maxd ns = (maxd, ns) := by
  intro fuel
  cases fuel with
  | zero => rfl
  | succ f => simp only [aggLoopF, if_neg h]

theorem aggLoopF_eq (data : List ℕ) (threshold : ℕ) :
    ∀ fuel off maxd ns, data.length ≤ off + fuel →
      aggLoopF fuel data threshold off maxd ns =
        aggLoop data threshold off maxd ns := by
  intro fuel
  induction fuel using Nat.strong_induction_on with
  | _ fuel ih =>
    intro off maxd ns hle
    match fuel with
    | 0 =>
      have h0 : data.length - off = 0 := by omega
      unfold aggLoop
      rw [h0]
    | fuel + 1 =>
      by_cases hc : off + 4 ≤ data.length ∧ footerAt data off = false
      · obtain ⟨m, hm⟩ : ∃ m, data.length - off = m + 1 :=
          ⟨data.length - off - 1, by omega⟩
        unfold aggLoop
        rw [hm]
        simp only [aggLoopF, if_pos hc]
        rw [ih fuel (by omega) (off + 4) _ _ (by omega),
          ih m (by omega) (off + 4) _ _ (by omega)]
      · rw [aggLoopF_stop data threshold off maxd ns hc]
        unfold aggLoop
        rw [aggLoopF_stop data threshold off maxd ns hc]

theorem aggLoop_loop (data : List ℕ) (threshold off maxd ns : ℕ) :
    aggLoop data threshold off maxd ns =
      if off + 4 ≤ data.length ∧ footerAt data off = false then
        aggLoop data threshold (off + 4)
          (if threshold ≤ array_uint16_le data (off + 2) then
            (if maxd < array_uint16_le data (off + 2) then
              array_uint16_le data (off + 2)
             else maxd)
           else maxd)
          (if threshold ≤ array_uint16_le data (off + 2) then ns + 1 else ns)
      else (maxd, ns) := by
  by_cases hc : off + 4 ≤ data.length ∧ footerAt data off = false
  · rw [if_pos hc]
    obtain ⟨m, hm⟩ : ∃ m, data.length - off = m + 1 :=
      ⟨data.length - off - 1, by omega⟩
    unfold aggLoop
    rw [hm]
    simp only [aggLoopF, if_pos hc]
    rw [aggLoopF_eq data threshold m (off + 4) _ _ (by omega)]
    rfl
  · rw [if_neg hc]
    exact aggLoopF_stop data threshold off maxd ns hc _

theorem sampleLoopF_stop (data : List ℕ) (atm hyd : ℚ) (interval off t : ℕ)
    (h : ¬(off + 4 ≤ data.length ∧ footerAt data off = false)) :
    ∀ fuel, sampleLoopF fuel data atm hyd interval off t = [] := by
  intro fuel
  cases fuel with
  | zero => rfl
  | succ f => simp only [sampleLoopF, if_neg h]

theorem sampleLoopF_eq (data : List ℕ) (atm hyd : ℚ) (interval : ℕ) :
    ∀ fuel off t, data.length ≤ off + fuel →
      sampleLoopF fuel data atm hyd interval off t =
        sampleLoop data atm hyd interval off t := by
  intro fuel
  induction fuel using Nat.strong_induction_on with
  | _ fuel ih =>
    intro off t hle
    match fuel with
    | 0 =>
      have h0 : data.length - off = 0 := by omega
      unfold sampleLoop
      rw [h0]
    | fuel + 1 =>
      by_cases hc : off + 4 ≤ data.length ∧ footerAt data off = false
      · obtain ⟨m, hm⟩ : ∃ m, data.length - off = m + 1 :=
          ⟨data.length - off - 1, by omega⟩
        unfold sampleLoop
        rw [hm]
        simp only [sampleLoopF, if_pos hc]
        rw [ih fuel (by omega) (off + 4) _ (by omega),
          ih m (by omega) (off + 4) _ (by omega)]
      · rw [sampleLoopF_stop data atm hyd interval off t hc]
        unfold sampleLoop
        rw [sampleLoopF_stop data atm hyd interval off t hc]

theorem sampleLoop_loop (data : List ℕ) (atm hyd : ℚ) (interval off t : ℕ) :
    sampleLoop data atm hyd interval off t =
      if off + 4 ≤ data.length ∧ footerAt data off = false then
        SampleEvent.time ((t + interval) % 2 ^ 32) ::
        SampleEvent.temperature
          ((array_uint16_le data off : ℚ) / 100 - 27315 / 100) ::
        SampleEvent.depth
          (((array_uint16_le data (off + 2) : ℚ) * BAR / 1000 - atm) / hyd) ::
        sampleLoop data atm hyd interval (off + 4) ((t + interval) % 2 ^ 32)
      else [] := by
  by_cases hc : off + 4 ≤ data.length ∧ footerAt data off = false
  · rw [if_pos hc]
    obtain ⟨m, hm⟩ : ∃ m, data.length - off = m + 1 :=
      ⟨data.length - off - 1, by omega⟩
    unfold sampleLoop
    rw [hm]
    simp only [sampleLoopF, if_pos hc]
    rw [sampleLoopF_eq data atm hyd interval m (off + 4) _ (by omega)]
    rfl
  · rw [if_neg hc]
    exact sampleLoopF_stop data atm hyd interval off t hc _

theorem findHeaderF_stop (data : List ℕ) (off : ℕ)
    (h : ¬ off + 4 ≤ data.length) :
    ∀ fuel, findHeaderF fuel data off = none := by
  intro fuel
  cases fuel with
  | zero => rfl
  | succ f => simp only [findHeaderF, if_neg h]

theorem findHeaderF_eq (data : List ℕ) :
    ∀ fuel off, data.length ≤ off + fuel →
      findHeaderF fuel data off = findHeader data off := by
  intro fuel
  induction fuel using Nat.strong_induction_on with
  | _ fuel ih =>
    intro off hle
    match fuel with
    | 0 =>
      have h0 : data.length - off = 0 := by omega
      unfold findHeader
      rw [h0]
    | fuel + 1 =>
      by_cases hc : off + 4 ≤ data.length
      · obtain ⟨m, hm⟩ : ∃ m, data.length - off = m + 1 :=
          ⟨data.length - off - 1, by omega⟩
        unfold findHeader
        rw [hm]
        simp only [findHeaderF, if_pos hc]
        by_cases hh : headerAt data off = true
        · rw [if_pos hh, if_pos hh]
        · rw [if_neg hh, if_neg hh,
            ih fuel (by omega) (off + 1) (by omega),
            ih m (by omega) (off + 1) (by omega)]
      · rw [findHeaderF_stop data off hc]
        unfold findHeader
        rw [findHeaderF_stop data off hc]

theorem findHeader_loop (data : List ℕ) (off : ℕ) :
    findHeader data off =
      if off + 4 ≤ data.length then
        if headerAt data off = true then some off
        else findHeader data (off + 1)
      else none := by
  by_cases hc : off + 4 ≤ data.length
  · rw [if_pos hc]
    obtain ⟨m, hm⟩ : ∃ m, data.length - off = m + 1 :=
      ⟨data.length - off - 1, by omega⟩
    unfold findHeader
    rw [hm]
    simp only [findHeaderF, if_pos hc]
    by_cases hh : headerAt data off = true
    · rw [if_pos hh, if_pos hh]
    · rw [if_neg hh, if_neg hh, findHeaderF_eq data m (off + 1) (by omega)]
      rfl
  · rw [if_neg hc]
    exact findHeaderF_stop data off hc _

theorem outerScanF_stop (data : List ℕ) (atm hyd : ℚ) (off : ℕ)
    (h : ¬ off + 4 ≤ data.length) :
    ∀ fuel, outerScanF fuel data atm hyd off = (DcStatus.success, []) := by
  intro fuel
  cases fuel with
  | zero => rfl
  | succ f => simp only [outerScanF, if_neg h]

theorem outerScanF_eq (data : List ℕ) (atm hyd : ℚ) :
    ∀ fuel off, data.length ≤ off + fuel →
      outerScanF fuel data atm hyd off = outerScan data atm hyd off := by
  intro fuel
  induction fuel using Nat.strong_induction_on with
  | _ fuel ih =>
    intro off hle
    match fuel with
    | 0 =>
      have h0 : data.length - off = 0 := by omega
      unfold outerScan
      rw [h0]
    | fuel + 1 =>
      by_cases hc : off + 4 ≤ data.length
      · obtain ⟨m, hm⟩ : ∃ m, data.length - off = m + 1 :=
          ⟨data.length - off - 1, by omega⟩
        unfold outerScan
        rw [hm]
        simp only [outerScanF, if_pos hc]
        by_cases hh : headerAt data off = true
        · rw [if_pos hh, if_pos hh]
        · rw [if_neg hh, if_neg hh,
            ih fuel (by omega) (off + 1) (by omega),
            ih m (by omega) (off + 1) (by omega)]
      · rw [outerScanF_stop data atm hyd off hc]
        unfold outerScan
        rw [outerScanF_stop data atm hyd off hc]

theorem outerScan_loop (data : List ℕ) (atm hyd : ℚ) (off : ℕ) :
    outerScan data atm hyd off =
      if off + 4 ≤ data.length then
        if headerAt data off = true then
          if data.length < off + 16 then (DcStatus.dataformat, [])
          else
            (DcStatus.success,
             sampleLoop data atm hyd (array_uint16_le data (off + 8))
               (off + 16) 0)
        else outerScan data atm hyd (off + 1)
      else (DcStatus.success, []) := by
  by_cases hc : off + 4 ≤ data.length
  · rw [if_pos hc]
    obtain ⟨m, hm⟩ : ∃ m, data.length - off = m + 1 :=
      ⟨data.length - off - 1, by omega⟩
    unfold outerScan
    rw [hm]
    simp only [outerScanF, if_pos hc]
    by_cases hh : headerAt data off = true
    · rw [if_pos hh, if_pos hh]
    · rw [if_neg hh, if_neg hh, outerScanF_eq data atm hyd m (off + 1) (by omega)]
      rfl
  · rw [if_neg hc]
    exact outerScanF_stop data atm hyd off hc _

/-! ## Characterizations of the loops -/

theorem byteAt_lt (data : List ℕ) (i : ℕ) : byteAt data i < 256 :=
  Nat.mod_lt _ (by norm_num)

theorem array_uint16_le_lt (data : List ℕ) (i : ℕ) :
    array_uint16_le data i < 65536 := by
  have h1 := byteAt_lt data i
  have h2 := byteAt_lt data (i + 1)
  unfold array_uint16_le
  omega

theorem array_uint32_le_lt (data : List ℕ) (i : ℕ) :
    array_uint32_le data i < 4294967296 := by
  have h1 := byteAt_lt data i
  have h2 := byteAt_lt data (i + 1)
  have h3 := byteAt_lt data (i + 2)
  have h4 := byteAt_lt data (i + 3)
  unfold array_uint32_le
  omega

theorem if_lt_eq_max (a b : ℕ) : (if a < b then b else a) = Nat.max a b := by
  have hdef : Nat.max a b = if a ≤ b then b else a := rfl
  rw [hdef]
  by_cases h : a < b
  · rw [if_pos h, if_pos (Nat.le_of_lt h)]
  · rw [if_neg h]
    by_cases h2 : a ≤ b
    · rw [if_pos h2]
      omega
    · rw [if_neg h2]

/-- The aggregate scan loop returns the running maximum folded over the
qualifying depths of the visited units, and the count accumulator plus the
number of qualifying units. -/
theorem aggLoop_spec (data : List ℕ) (threshold : ℕ) :
    ∀ off maxd ns,
      aggLoop data threshold off maxd ns =
        ((((unitOffsets data off).map fun u =>
              array_uint16_le data (u + 2)).filter
            (fun d => decide (threshold ≤ d))).foldl Nat.max maxd,
         ns + (((unitOffsets data off).map fun u =>
              array_uint16_le data (u + 2)).filter
            (fun d => decide (threshold ≤ d))).length) := by
  have key : ∀ n off, data.length - off ≤ n → ∀ maxd ns,
      aggLoop data threshold off maxd ns =
        ((((unitOffsets data off).map fun u =>
              array_uint16_le data (u + 2)).filter
            (fun d => decide (threshold ≤ d))).foldl Nat.max maxd,
         ns + (((unitOffsets data off).map fun u =>
              array_uint16_le data (u + 2)).filter
            (fun d => decide (threshold ≤ d))).length) := by
    intro n
    induction n with
    | zero =>
      intro off hle maxd ns
      have hc : ¬(off + 4 ≤ data.length ∧ footerAt data off = false) := by
        intro h
        omega
      rw [aggLoop_loop, unitOffsets_loop, if_neg hc, if_neg hc]
      simp
    | succ n ih =>
      intro off hle maxd ns
      rw [aggLoop_loop, unitOffsets_loop]
      by_cases hc : off + 4 ≤ data.length ∧ footerAt data off = false
      · rw [if_pos hc, if_pos hc, ih (off + 4) (by omega)]
        simp only [List.map_cons, List.filter_cons, decide_eq_true_eq]
        by_cases hd : threshold ≤ array_uint16_le data (off + 2)
        · simp only [if_pos hd, List.foldl_cons, List.length_cons,
            if_lt_eq_max]
          refine congrArg₂ Prod.mk rfl ?_
          omega
        · simp only [if_neg hd]
      · rw [if_neg hc, if_neg hc]
        simp
  intro off maxd ns
  exact key (data.length - off) off le_rfl maxd ns

/-- The sample decoding loop emits, for the k-th visited unit (counting from
0), exactly the triple TIME, TEMPERATURE, DEPTH, with the running time at
t + (k+1) * interval (as a uint32) and the temperature and depth read from
the unit's two 2-byte LE fields. -/
theorem sampleLoop_spec (data : List ℕ) (atm hyd : ℚ) (interval : ℕ) :
    ∀ off t,
      sampleLoop data atm hyd interval off t =
        (List.range (unitOffsets data off).length).flatMap fun k =>
          [SampleEvent.time ((t + (k + 1) * interval) % 2 ^ 32),
           SampleEvent.temperature
             ((array_uint16_le data (off + 4 * k) : ℚ) / 100 - 27315 / 100),
           SampleEvent.depth
             (((array_uint16_le data (off + 4 * k + 2) : ℚ) * BAR / 1000 -
                atm) / hyd)] := by
  have key : ∀ n off, data.length - off ≤ n → ∀ t,
      sampleLoop data atm hyd interval off t =
        (List.range (unitOffsets data off).length).flatMap fun k =>
          [SampleEvent.time ((t + (k + 1) * interval) % 2 ^ 32),
           SampleEvent.temperature
             ((array_uint16_le data (off + 4 * k) : ℚ) / 100 - 27315 / 100),
           SampleEvent.depth
             (((array_uint16_le data (off + 4 * k + 2) : ℚ) * BAR / 1000 -
                atm) / hyd)] := by
    intro n
    induction n with
    | zero =>
      intro off hle t
      have hc : ¬(off + 4 ≤ data.length ∧ footerAt data off = false) := by
        intro h
        omega
      rw [sampleLoop_loop, unitOffsets_loop, if_neg hc, if_neg hc]
      simp
    | succ n ih =>
      intro off hle t
      rw [sampleLoop_loop, unitOffsets_loop]
      by_cases hc : off + 4 ≤ data.length ∧ footerAt data off = false
      · rw [if_pos hc, if_pos hc, ih (off + 4) (by omega)]
        rw [List.length_cons, List.range_succ_eq_map, List.flatMap_cons,
          List.flatMap_map]
        simp only [Nat.zero_add, Nat.one_mul, Nat.mul_zero, Nat.add_zero,
          List.cons_append, List.nil_append]
        refine congrArg₂ List.cons rfl (congrArg₂ List.cons rfl
          (congrArg₂ List.cons rfl ?_))
        refine congrArg _ (funext fun k => ?_)
        simp only [Nat.succ_eq_add_one]
        rw [Nat.mod_add_mod,
          show t + interval + (k + 1) * interval =
            t + (k + 1 + 1) * interval from by ring,
          show off + 4 + 4 * k = off + 4 * (k + 1) from by ring]
      · rw [if_neg hc, if_neg hc]
        simp
  intro off t
  exact key (data.length - off) off le_rfl t

/-- The record search loop is determined by the first header-sentinel
occurrence: none found means success with no emissions; a match requires the
16-byte record header to fit and decodes the samples of that single
record. -/
theorem outerScan_spec (data : List ℕ) (atm hyd : ℚ) :
    ∀ off,
      outerScan data atm hyd off =
        match findHeader data off with
        | none => (DcStatus.success, [])
        | some m =>
          if data.length < m + 16 then (DcStatus.dataformat, [])
          else
            (DcStatus.success,
             sampleLoop data atm hyd (array_uint16_le data (m + 8))
               (m + 16) 0) := by
  have key : ∀ n off, data.length - off ≤ n →
      outerScan data atm hyd off =
        match findHeader data off with
        | none => (DcStatus.success, [])
        | some m =>
          if data.length < m + 16 then (DcStatus.dataformat, [])
          else
            (DcStatus.success,
             sampleLoop data atm hyd (array_uint16_le data (m + 8))
               (m + 16) 0) := by
    intro n
    induction n with
    | zero =>
      intro off hle
      have hc : ¬ off + 4 ≤ data.length := by omega
      rw [outerScan_loop, findHeader_loop, if_neg hc, if_neg hc]
    | succ n ih =>
      intro off hle
      rw [outerScan_loop, findHeader_loop]
      by_cases hc : off + 4 ≤ data.length
      · rw [if_pos hc, if_pos hc]
        by_cases hh : headerAt data off = true
        · rw [if_pos hh, if_pos hh]
        · rw [if_neg hh, if_neg hh]
          exact ih (off + 1) (by omega)
      · rw [if_neg hc, if_neg hc]
  intro off
  exact key (data.length - off) off le_rfl

/-! ## Characterization of get_field -/

/-- The cache fill of get_field, expressed with the spec-side scan results:
on an invalid cache the scan runs and the cache takes the spec's
total_dive_seconds and max_depth_raw of the installed buffer. -/
def cacheFill (p : SensusParser) : SensusParser :=
  if p.cached then p
  else
    { p with cached := true,
             divetime := specDiveTime p.data,
             maxdepth := specMaxDepthRaw p.data }

/-- The switch of get_field on the post-scan state: with a non-null output
pointer the three supported kinds succeed and write their value, every other
kind fails with Unsupported; with a null output pointer the switch is skipped
and the call succeeds. -/
def fieldSwitch (p' : SensusParser) (ty : FieldType) (hasValue : Bool) :
    DcStatus × SensusParser × Option FieldValue :=
  if hasValue then
    match ty with
    | FieldType.divetime =>
        (DcStatus.success, p', some (FieldValue.uint p'.divetime))
    | FieldType.maxdepth =>
        (DcStatus.success, p',
         some (FieldValue.dbl
           (((p'.maxdepth : ℚ) * BAR / 1000 - p'.atmospheric) /
             p'.hydrostatic)))
    | FieldType.gasmix_count =>
        (DcStatus.success, p', some (FieldValue.uint 0))
    | _ => (DcStatus.unsupported, p', none)
  else (DcStatus.success, p', none)

/-- get_field characterized: the length guard, then the cache fill with the
spec-side scan results, then the switch. -/
theorem get_field_spec (p : SensusParser) (ty : FieldType) (hasValue : Bool) :
    reefnet_sensusultra_parser_get_field p ty hasValue =
      if p.data.length < 20 then (DcStatus.dataformat, p, none)
      else fieldSwitch (cacheFill p) ty hasValue := by
  unfold reefnet_sensusultra_parser_get_field
  by_cases hl : p.data.length < 20
  · rw [if_pos hl, if_pos hl]
  · rw [if_neg hl, if_neg hl]
    have hfill :
        (if p.cached then p
         else
           { p with cached := true,
                    divetime := (aggLoop p.data (array_uint16_le p.data 10)
                        16 0 0).2 * array_uint16_le p.data 8 % 2 ^ 32,
                    maxdepth := (aggLoop p.data (array_uint16_le p.data 10)
                        16 0 0).1 }) = cacheFill p := by
      unfold cacheFill
      rw [aggLoop_spec]
      unfold specDiveTime specMaxDepthRaw specQualifyingDepths
      simp only [Nat.zero_add]
    rw [← hfill]
    unfold fieldSwitch
    rfl

theorem fieldSwitch_state (p' : SensusParser) (ty : FieldType) (hv : Bool) :
    (fieldSwitch p' ty hv).2.1 = p' := by
  unfold fieldSwitch
  cases hv <;> cases ty <;> rfl

theorem cacheFill_data (p : SensusParser) : (cacheFill p).data = p.data := by
  unfold cacheFill
  by_cases h : p.cached <;> simp [h]

theorem cacheFill_cached (p : SensusParser) (h : p.cached = true) :
    cacheFill p = p := by
  unfold cacheFill
  rw [if_pos h]

theorem cacheFill_cached_true (p : SensusParser) :
    (cacheFill p).cached = true := by
  unfold cacheFill
  by_cases h : p.cached <;> simp [h]

/-- The parser state after a get_field call: unchanged when the buffer is
shorter than 20 bytes, the cache-filled state otherwise. -/
theorem get_field_state (p : SensusParser) (ty : FieldType) (hv : Bool) :
    (reefnet_sensusultra_parser_get_field p ty hv).2.1 =
      if p.data.length < 20 then p else cacheFill p := by
  rw [get_field_spec]
  by_cases hl : p.data.length < 20
  · rw [if_pos hl, if_pos hl]
  · rw [if_neg hl, if_neg hl, fieldSwitch_state]

/-- The reachable parser states: freshly created, then closed under the
operations that mutate the state (get_datetime and samples_foreach do not
change it). -/
inductive Reachable : SensusParser → Prop where
  | created (devtime : ℕ) (systime : ℤ) :
      Reachable (reefnet_sensusultra_parser_create devtime systime)
  | set_data (p : SensusParser) (buf : List ℕ) : Reachable p →
      Reachable (reefnet_sensusultra_parser_set_data p buf).2
  | set_calibration (p : SensusParser) (a h : ℚ) : Reachable p →
      Reachable (reefnet_sensusultra_parser_set_calibration p a h).2
  | get_field (p : SensusParser) (ty : FieldType) (hv : Bool) : Reachable p →
      Reachable (reefnet_sensusultra_parser_get_field p ty hv).2.1

/-! ## Concrete fixtures used by witnesses and counterexamples -/

/-- A parser with the simple calibration atmospheric 0, hydrostatic 1. -/
def wCal : SensusParser :=
  (reefnet_sensusultra_parser_set_calibration
    (reefnet_sensusultra_parser_create 0 0) 0 1).2

/-- The spec's threshold test vector: interval 10 at offset 8, threshold 100
at offset 10, one sample of depth 50 (below) and one of depth 200 (above). -/
def bufThreshold : List ℕ :=
  [9, 9, 9, 9, 0, 0, 0, 0, 10, 0, 100, 0, 0, 0, 0, 0,
   0, 0, 50, 0, 0, 0, 200, 0]

/-- A record for samples_foreach: header sentinel at 0, interval 10, two
sample units (1, 2) and (3, 4), then the footer sentinel. -/
def bufSamples : List ℕ :=
  [0, 0, 0, 0, 9, 9, 9, 9, 10, 0, 0, 0, 0, 0, 0, 0,
   1, 0, 2, 0, 3, 0, 4, 0, 255, 255, 255, 255]

/-- The samples parser fixture: calibration (0, 1) and bufSamples installed. -/
def pSamples : SensusParser :=
  (reefnet_sensusultra_parser_set_data wCal bufSamples).2

/-- A record whose interval field is zero, with two sample units and no
footer. -/
def bufZeroInterval : List ℕ :=
  [0, 0, 0, 0, 0, 0, 0, 0, 0, 0, 0, 0, 0, 0, 0, 0,
   1, 0, 2, 0, 3, 0, 4, 0]

/-! ## The claims -/

/-- C7: for every installed buffer shorter than 8 bytes get_datetime fails
with DataFormat, and for every installed buffer shorter than 20 bytes
get_field with kind DIVE_TIME or MAX_DEPTH fails with DataFormat; both
guards run before any buffer field is read (the failing result, parser state
included, depends only on the buffer's length). -/
theorem c7_short_buffer_dataformat (p : SensusParser) (ty : FieldType)
    (hv : Bool) (_hty : ty = FieldType.divetime ∨ ty = FieldType.maxdepth) :
    (p.data.length < 8 →
      reefnet_sensusultra_parser_get_datetime p =
        (DcStatus.dataformat, none)) ∧
    (p.data.length < 20 →
      reefnet_sensusultra_parser_get_field p ty hv =
        (DcStatus.dataformat, p, none)) := by
  constructor
  · intro h8
    unfold reefnet_sensusultra_parser_get_datetime
    rw [if_pos (by omega)]
  · intro h20
    rw [get_field_spec, if_pos h20]

/-- C7 witness: on a freshly created parser (empty buffer) both operations
fail with DataFormat. -/
theorem c7_short_buffer_dataformat_witness :
    reefnet_sensusultra_parser_get_datetime
        (reefnet_sensusultra_parser_create 0 0) =
      (DcStatus.dataformat, none) ∧
    reefnet_sensusultra_parser_get_field
        (reefnet_sensusultra_parser_create 0 0) FieldType.divetime true =
      (DcStatus.dataformat, reefnet_sensusultra_parser_create 0 0, none) :=
  ⟨(c7_short_buffer_dataformat (reefnet_sensusultra_parser_create 0 0)
      FieldType.divetime true (Or.inl rfl)).1 (by decide),
   (c7_short_buffer_dataformat (reefnet_sensusultra_parser_create 0 0)
      FieldType.divetime true (Or.inl rfl)).2 (by decide)⟩

/-- C9: samples_foreach decodes at most the first record.  With no all-zero
4-byte sentinel anywhere (findHeader none) it succeeds with zero emissions;
at the first match m, fewer than 16 remaining bytes fail with DataFormat;
otherwise exactly that record's samples are emitted (sampleLoop stops at the
footer or the buffer end) and the scan stops — no later record is ever
decoded. -/
theorem c9_samples_foreach_first_record_only (p : SensusParser) :
    reefnet_sensusultra_parser_samples_foreach p =
      match findHeader p.data 0 with
      | none => (DcStatus.success, [])
      | some m =>
        if p.data.length < m + 16 then (DcStatus.dataformat, [])
        else
          (DcStatus.success,
           sampleLoop p.data p.atmospheric p.hydrostatic
             (array_uint16_le p.data (m + 8)) (m + 16) 0) :=
  outerScan_spec p.data p.atmospheric p.hydrostatic 0

/-- C3 counterexample: with device_reference_ticks 0, host_reference_ticks 0
and an embedded timestamp field 1, the source's unsigned 32-bit subtraction
wraps: the code yields 0 - (2^32 - 1) = -4294967295, while the claim's
integer formula host - (dev - ts) yields 1. -/
theorem c3_wrap_counterexample :
    reefnet_sensusultra_parser_get_datetime
        (reefnet_sensusultra_parser_set_data
          (reefnet_sensusultra_parser_create 0 0)
          [0, 0, 0, 0, 1, 0, 0, 0]).2 =
      (DcStatus.success, some (-4294967295)) ∧
    (0 : ℤ) - ((0 : ℤ) - (1 : ℤ)) = 1 ∧
    (-4294967295 : ℤ) ≠ (1 : ℤ) := by
  refine ⟨by decide, by decide, by decide⟩

/-- C3 (amended): for every buffer of length ≥ 8, get_datetime reads the
32-bit LE timestamp at bytes 4-7 and computes
host_reference_ticks - ((device_reference_ticks - timestamp) mod 2^32); this
equals the claim's host - (dev - ts) whenever the embedded timestamp does
not exceed device_reference_ticks (a uint32). -/
theorem c3_get_datetime_rebase (p : SensusParser)
    (hlen : 8 ≤ p.data.length) (hdev : p.devtime < 2 ^ 32)
    (hts : array_uint32_le p.data 4 ≤ p.devtime) :
    reefnet_sensusultra_parser_get_datetime p =
      (DcStatus.success,
       some (p.systime -
         ((p.devtime : ℤ) - (array_uint32_le p.data 4 : ℤ)))) := by
  unfold reefnet_sensusultra_parser_get_datetime
  rw [if_neg (by omega)]
  have h1 : (p.devtime + 2 ^ 32 - array_uint32_le p.data 4) % 2 ^ 32 =
      p.devtime - array_uint32_le p.data 4 := by
    omega
  rw [h1, Nat.cast_sub hts]

/-- C3 witness: the claim's example: device_reference_ticks 1000,
host_reference_ticks 50000, embedded timestamp 900 (bytes 132, 3), so
get_datetime yields 50000 - (1000 - 900) = 49900. -/
theorem c3_get_datetime_rebase_witness :
    reefnet_sensusultra_parser_get_datetime
        (reefnet_sensusultra_parser_set_data
          (reefnet_sensusultra_parser_create 1000 50000)
          [0, 0, 0, 0, 132, 3, 0, 0]).2 =
      (DcStatus.success, some 49900) := by
  rw [c3_get_datetime_rebase _ (by decide) (by decide) (by decide)]
  decide

/-- C1: after set_data installs a buffer of length ≥ 20, the first
get_field(DIVE_TIME) and get_field(MAX_DEPTH) queries compute their results
by the spec's scan: interval as 2-byte LE at offset 8 and threshold as
2-byte LE at offset 10; units of 4 bytes from offset 16 until fewer than 4
bytes remain or the next 4 bytes are 0xFFFFFFFF, each unit's depth being the
2-byte LE at offset+2 and qualifying iff it is ≥ threshold; DIVE_TIME is the
qualifying count times interval (stored in a uint32 cache field) and
MAX_DEPTH is the largest qualifying depth (0 if none) returned as
(raw * BAR / 1000 - atmospheric) / hydrostatic. -/
theorem c1_first_query_scans (p : SensusParser) (buf : List ℕ)
    (hlen : 20 ≤ buf.length) :
    (reefnet_sensusultra_parser_get_field
        (reefnet_sensusultra_parser_set_data p buf).2 FieldType.divetime
        true).1 = DcStatus.success ∧
    (reefnet_sensusultra_parser_get_field
        (reefnet_sensusultra_parser_set_data p buf).2 FieldType.divetime
        true).2.2 = some (FieldValue.uint (specDiveTime buf)) ∧
    (reefnet_sensusultra_parser_get_field
        (reefnet_sensusultra_parser_set_data p buf).2 FieldType.maxdepth
        true).1 = DcStatus.success ∧
    (reefnet_sensusultra_parser_get_field
        (reefnet_sensusultra_parser_set_data p buf).2 FieldType.maxdepth
        true).2.2 =
      some (FieldValue.dbl
        (((specMaxDepthRaw buf : ℚ) * BAR / 1000 - p.atmospheric) /
          p.hydrostatic)) := by
  have h20 : ¬ buf.length < 20 := by omega
  refine ⟨?_, ?_, ?_, ?_⟩ <;>
    simp [reefnet_sensusultra_parser_set_data, get_field_spec, cacheFill,
      fieldSwitch, h20]

/-- C1 witness: the spec's threshold test vector (threshold 100, depths 50
and 200, interval 10) with calibration (0, 1): DIVE_TIME is 10 (one
qualifying sample) and MAX_DEPTH is 200 * 100000 / 1000 = 20000. -/
theorem c1_first_query_scans_witness :
    (reefnet_sensusultra_parser_get_field
        (reefnet_sensusultra_parser_set_data wCal bufThreshold).2
        FieldType.divetime true).2.2 = some (FieldValue.uint 10) ∧
    (reefnet_sensusultra_parser_get_field
        (reefnet_sensusultra_parser_set_data wCal bufThreshold).2
        FieldType.maxdepth true).2.2 = some (FieldValue.dbl 20000) := by
  have h := c1_first_query_scans wCal bufThreshold (by decide)
  constructor
  · rw [h.2.1, show specDiveTime bufThreshold = 10 from by decide]
  · rw [h.2.2.2, show specMaxDepthRaw bufThreshold = 200 from by decide,
      show wCal.atmospheric = (0 : ℚ) from rfl,
      show wCal.hydrostatic = (1 : ℚ) from rfl]
    norm_num [BAR]

/-- C4: set_data always succeeds and resets the cache's valid flag, and in
every reachable parser state a valid cache implies that the cached divetime
and maxdepth are exactly the spec scan results of the currently installed
buffer (whose length is then ≥ 20), so the next aggregate query after a
set_data recomputes from the new buffer. -/
theorem c4_set_data_invalidates_cache_invariant :
    (∀ p buf,
      (reefnet_sensusultra_parser_set_data p buf).1 = DcStatus.success ∧
      (reefnet_sensusultra_parser_set_data p buf).2.cached = false) ∧
    (∀ p, Reachable p → p.cached = true →
      20 ≤ p.data.length ∧ p.divetime = specDiveTime p.data ∧
        p.maxdepth = specMaxDepthRaw p.data) := by
  constructor
  · intro p buf
    exact ⟨rfl, rfl⟩
  · intro p hreach
    induction hreach with
    | created devtime systime =>
      intro hc
      exact absurd hc (by simp [reefnet_sensusultra_parser_create])
    | set_data q buf hq ih =>
      intro hc
      exact absurd hc (by simp [reefnet_sensusultra_parser_set_data])
    | set_calibration q a b hq ih =>
      intro hc
      simp only [reefnet_sensusultra_parser_set_calibration] at hc ⊢
      exact ih hc
    | get_field q ty hv hq ih =>
      intro hc
      rw [get_field_state] at hc ⊢
      by_cases hl : q.data.length < 20
      · rw [if_pos hl] at hc ⊢
        exact ih hc
      · rw [if_neg hl] at hc ⊢
        unfold cacheFill at hc ⊢
        by_cases hcach : q.cached = true
        · rw [if_pos hcach] at hc ⊢
          exact ih hc
        · rw [if_neg hcach] at hc ⊢
          refine ⟨by simpa using Nat.le_of_not_lt hl, by simp, by simp⟩

/-- C4 witness: create, install a 20-byte buffer (cache invalid), query a
field (cache valid); the reachable cached state carries the spec scan
results of its buffer. -/
theorem c4_set_data_invalidates_cache_invariant_witness :
    (reefnet_sensusultra_parser_set_data
        (reefnet_sensusultra_parser_create 0 0)
        (List.replicate 20 1)).2.cached = false ∧
    (reefnet_sensusultra_parser_get_field
        (reefnet_sensusultra_parser_set_data
          (reefnet_sensusultra_parser_create 0 0)
          (List.replicate 20 1)).2 FieldType.divetime true).2.1.divetime =
      specDiveTime
        (reefnet_sensusultra_parser_get_field
          (reefnet_sensusultra_parser_set_data
            (reefnet_sensusultra_parser_create 0 0)
            (List.replicate 20 1)).2 FieldType.divetime true).2.1.data :=
  ⟨(c4_set_data_invalidates_cache_invariant.1
      (reefnet_sensusultra_parser_create 0 0) (List.replicate 20 1)).2,
   (c4_set_data_invalidates_cache_invariant.2 _
      (Reachable.get_field _ FieldType.divetime true
        (Reachable.set_data _ (List.replicate 20 1)
          (Reachable.created 0 0)))
      (by decide)).2.1⟩

/-- Two 20-byte buffers that agree on their first 16 bytes (the header
region) and differ only in the sample region: one sample unit of depth 5
versus an immediate footer sentinel. -/
def bufSampleUnit : List ℕ :=
  [0, 0, 0, 0, 0, 0, 0, 0, 1, 0, 0, 0, 0, 0, 0, 0, 0, 0, 5, 0]

/-- The footer-only companion of bufSampleUnit. -/
def bufSampleFooter : List ℕ :=
  [0, 0, 0, 0, 0, 0, 0, 0, 1, 0, 0, 0, 0, 0, 0, 0, 255, 255, 255, 255]

/-- C5 counterexample: a GASMIX_COUNT query does read the sample bytes when
the cache is invalid.  On two buffers agreeing on the whole header region
and differing only in the sample region, get_field(GASMIX_COUNT) returns 0
on both, but leaves different parser states behind: the aggregate scan ran
and cached divetime 1 versus divetime 0 from the sample bytes. -/
theorem c5_gasmix_count_scans_counterexample :
    (reefnet_sensusultra_parser_get_field
        (reefnet_sensusultra_parser_set_data
          (reefnet_sensusultra_parser_create 0 0) bufSampleUnit).2
        FieldType.gasmix_count true).2.2 = some (FieldValue.uint 0) ∧
    (reefnet_sensusultra_parser_get_field
        (reefnet_sensusultra_parser_set_data
          (reefnet_sensusultra_parser_create 0 0) bufSampleFooter).2
        FieldType.gasmix_count true).2.2 = some (FieldValue.uint 0) ∧
    List.take 16 bufSampleUnit = List.take 16 bufSampleFooter ∧
    bufSampleUnit.length = bufSampleFooter.length ∧
    (reefnet_sensusultra_parser_get_field
        (reefnet_sensusultra_parser_set_data
          (reefnet_sensusultra_parser_create 0 0) bufSampleUnit).2
        FieldType.gasmix_count true).2.1.divetime = 1 ∧
    (reefnet_sensusultra_parser_get_field
        (reefnet_sensusultra_parser_set_data
          (reefnet_sensusultra_parser_create 0 0) bufSampleFooter).2
        FieldType.gasmix_count true).2.1.divetime = 0 := by
  refine ⟨by decide, by decide, by decide, by decide, by decide, by decide⟩

/-- C5 (amended): for every buffer of length ≥ 20, get_field(GASMIX_COUNT)
succeeds and returns 0 regardless of the buffer's content, and the returned
value does not depend on the sample region; however, the query does trigger
the aggregate scan when the cache is invalid (the call leaves the
cache-filled state behind). -/
theorem c5_gasmix_count_zero (p : SensusParser)
    (hl : 20 ≤ p.data.length) :
    (reefnet_sensusultra_parser_get_field p FieldType.gasmix_count
        true).1 = DcStatus.success ∧
    (reefnet_sensusultra_parser_get_field p FieldType.gasmix_count
        true).2.2 = some (FieldValue.uint 0) ∧
    (reefnet_sensusultra_parser_get_field p FieldType.gasmix_count
        true).2.1 = cacheFill p := by
  have h := get_field_spec p FieldType.gasmix_count true
  rw [if_neg (by omega)] at h
  rw [h]
  unfold fieldSwitch
  exact ⟨rfl, rfl, rfl⟩

/-- C5 witness: on the one-sample-unit fixture the GASMIX_COUNT query
succeeds with value 0. -/
theorem c5_gasmix_count_zero_witness :
    (reefnet_sensusultra_parser_get_field
        (reefnet_sensusultra_parser_set_data
          (reefnet_sensusultra_parser_create 1 2) bufSampleUnit).2
        FieldType.gasmix_count true).1 = DcStatus.success ∧
    (reefnet_sensusultra_parser_get_field
        (reefnet_sensusultra_parser_set_data
          (reefnet_sensusultra_parser_create 1 2) bufSampleUnit).2
        FieldType.gasmix_count true).2.2 = some (FieldValue.uint 0) :=
  ⟨(c5_gasmix_count_zero _ (by decide)).1,
   (c5_gasmix_count_zero _ (by decide)).2.1⟩

/-- C6 counterexample: with a 20-byte buffer and a field kind outside the
supported three, get_field with a null output pointer returns Success, not
Unsupported: the source only enters the switch when the output pointer is
non-null. -/
theorem c6_null_pointer_counterexample :
    (reefnet_sensusultra_parser_get_field
        (reefnet_sensusultra_parser_set_data
          (reefnet_sensusultra_parser_create 0 0)
          (List.replicate 20 7)).2 FieldType.avgdepth false).1 =
      DcStatus.success ∧
    DcStatus.success ≠ DcStatus.unsupported := by
  refine ⟨by decide, by decide⟩

/-- C6 (amended): for every buffer of length ≥ 20 and every field kind
outside DIVE_TIME, MAX_DEPTH, GASMIX_COUNT, get_field fails with Unsupported
when the output pointer is non-null and writes nothing; with a null output
pointer the switch is skipped and the call returns Success. -/
theorem c6_unsupported_kinds (p : SensusParser) (ty : FieldType)
    (hl : 20 ≤ p.data.length)
    (hty : ty ≠ FieldType.divetime ∧ ty ≠ FieldType.maxdepth ∧
      ty ≠ FieldType.gasmix_count) :
    ((reefnet_sensusultra_parser_get_field p ty true).1 =
        DcStatus.unsupported ∧
     (reefnet_sensusultra_parser_get_field p ty true).2.2 = none) ∧
    ((reefnet_sensusultra_parser_get_field p ty false).1 =
        DcStatus.success ∧
     (reefnet_sensusultra_parser_get_field p ty false).2.2 = none) := by
  cases ty with
  | divetime => exact absurd rfl hty.1
  | maxdepth => exact absurd rfl hty.2.1
  | gasmix_count => exact absurd rfl hty.2.2
  | avgdepth =>
    refine ⟨⟨?_, ?_⟩, ?_, ?_⟩ <;> rw [get_field_spec, if_neg (by omega)] <;>
      rfl
  | gasmix =>
    refine ⟨⟨?_, ?_⟩, ?_, ?_⟩ <;> rw [get_field_spec, if_neg (by omega)] <;>
      rfl

/-- C6 witness: an unsupported kind on a 20-byte buffer: Unsupported with a
non-null output pointer, Success with a null one. -/
theorem c6_unsupported_kinds_witness :
    (reefnet_sensusultra_parser_get_field
        (reefnet_sensusultra_parser_set_data
          (reefnet_sensusultra_parser_create 0 0)
          (List.replicate 20 3)).2 FieldType.gasmix true).1 =
      DcStatus.unsupported ∧
    (reefnet_sensusultra_parser_get_field
        (reefnet_sensusultra_parser_set_data
          (reefnet_sensusultra_parser_create 0 0)
          (List.replicate 20 3)).2 FieldType.gasmix false).1 =
      DcStatus.success :=
  ⟨(c6_unsupported_kinds _ FieldType.gasmix (by decide)
      ⟨by decide, by decide, by decide⟩).1.1,
   (c6_unsupported_kinds _ FieldType.gasmix (by decide)
      ⟨by decide, by decide, by decide⟩).2.1⟩

theorem fieldSwitch_value_data_irrel (q : SensusParser) (d : List ℕ)
    (ty : FieldType) (hv : Bool) :
    (fieldSwitch { q with data := d } ty hv).2.2 =
      (fieldSwitch q ty hv).2.2 := by
  cases hv <;> cases ty <;> rfl

/-- C8: two consecutive get_field calls with no intervening set_data agree
in status, value and final state; and the second call does not re-read the
buffer: replacing the buffer content by any list of the same length between
the two calls leaves the second call's value unchanged. -/
theorem c8_get_field_idempotent (p : SensusParser) (ty : FieldType)
    (hv : Bool)
    (_hty : ty = FieldType.divetime ∨ ty = FieldType.maxdepth ∨
      ty = FieldType.gasmix_count) :
    ((reefnet_sensusultra_parser_get_field
        (reefnet_sensusultra_parser_get_field p ty hv).2.1 ty hv).1 =
      (reefnet_sensusultra_parser_get_field p ty hv).1 ∧
     (reefnet_sensusultra_parser_get_field
        (reefnet_sensusultra_parser_get_field p ty hv).2.1 ty hv).2.2 =
      (reefnet_sensusultra_parser_get_field p ty hv).2.2 ∧
     (reefnet_sensusultra_parser_get_field
        (reefnet_sensusultra_parser_get_field p ty hv).2.1 ty hv).2.1 =
      (reefnet_sensusultra_parser_get_field p ty hv).2.1) ∧
    (∀ d : List ℕ, d.length = p.data.length →
      (reefnet_sensusultra_parser_get_field
        { (reefnet_sensusultra_parser_get_field p ty hv).2.1 with
          data := d } ty hv).2.2 =
      (reefnet_sensusultra_parser_get_field p ty hv).2.2) := by
  by_cases hl : p.data.length < 20
  · have h1 : reefnet_sensusultra_parser_get_field p ty hv =
        (DcStatus.dataformat, p, none) := by
      rw [get_field_spec, if_pos hl]
    constructor
    · simp only [h1]
      exact ⟨trivial, trivial, trivial⟩
    · intro d hd
      simp only [h1]
      rw [get_field_spec, if_pos (by simpa [hd] using hl)]
  · have h1 : reefnet_sensusultra_parser_get_field p ty hv =
        fieldSwitch (cacheFill p) ty hv := by
      rw [get_field_spec, if_neg hl]
    have hstate : (reefnet_sensusultra_parser_get_field p ty hv).2.1 =
        cacheFill p := by
      rw [h1, fieldSwitch_state]
    have h2 : reefnet_sensusultra_parser_get_field (cacheFill p) ty hv =
        fieldSwitch (cacheFill p) ty hv := by
      rw [get_field_spec, if_neg (by rw [cacheFill_data]; omega),
        cacheFill_cached (cacheFill p) (cacheFill_cached_true p)]
    constructor
    · rw [hstate, h2, h1]
      exact ⟨rfl, rfl, fieldSwitch_state _ _ _⟩
    · intro d hd
      rw [hstate]
      have hrec : ({ cacheFill p with data := d }).cached = true :=
        cacheFill_cached_true p
      have h3 : reefnet_sensusultra_parser_get_field
          { cacheFill p with data := d } ty hv =
          fieldSwitch (cacheFill { cacheFill p with data := d }) ty hv := by
        rw [get_field_spec, if_neg (by simpa [hd] using hl)]
      rw [h3, cacheFill_cached _ hrec, h1, fieldSwitch_value_data_irrel]

/-- The cached parser fixture: calibration (0, 1), the threshold test vector
installed and scanned once (divetime 10, maxdepth 200 cached). -/
def pCached : SensusParser :=
  (reefnet_sensusultra_parser_get_field
    (reefnet_sensusultra_parser_set_data wCal bufThreshold).2
    FieldType.divetime true).2.1

/-- C8 witness: on the scanned threshold fixture, the second DIVE_TIME query
agrees with the first, and replacing the buffer content (same length)
between the calls does not change the value. -/
theorem c8_get_field_idempotent_witness :
    (reefnet_sensusultra_parser_get_field
        (reefnet_sensusultra_parser_get_field
          (reefnet_sensusultra_parser_set_data wCal bufThreshold).2
          FieldType.divetime true).2.1 FieldType.divetime true).2.2 =
      (reefnet_sensusultra_parser_get_field
        (reefnet_sensusultra_parser_set_data wCal bufThreshold).2
        FieldType.divetime true).2.2 ∧
    (reefnet_sensusultra_parser_get_field
        { (reefnet_sensusultra_parser_get_field
            (reefnet_sensusultra_parser_set_data wCal bufThreshold).2
            FieldType.divetime true).2.1 with
          data := List.replicate 24 0 } FieldType.divetime true).2.2 =
      (reefnet_sensusultra_parser_get_field
        (reefnet_sensusultra_parser_set_data wCal bufThreshold).2
        FieldType.divetime true).2.2 :=
  ⟨(c8_get_field_idempotent
      (reefnet_sensusultra_parser_set_data wCal bufThreshold).2
      FieldType.divetime true (Or.inl rfl)).1.2.1,
   (c8_get_field_idempotent
      (reefnet_sensusultra_parser_set_data wCal bufThreshold).2
      FieldType.divetime true (Or.inl rfl)).2
     (List.replicate 24 0) (by decide)⟩

/-- C10: set_calibration preserves the cache (valid flag, cached divetime
and raw maxdepth all unchanged): only the raw maximum depth is cached and
the MAX_DEPTH unit conversion is applied at query time.  On a scanned
buffer, a MAX_DEPTH query after set_calibration(a, b) returns
(max_depth_raw * BAR / 1000 - a) / b without re-scanning (the state is
unchanged by the query), while DIVE_TIME still returns the cached value. -/
theorem c10_set_calibration_keeps_cache (p : SensusParser) (a b : ℚ)
    (hc : p.cached = true) (hl : 20 ≤ p.data.length) :
    (reefnet_sensusultra_parser_set_calibration p a b).2.cached = true ∧
    (reefnet_sensusultra_parser_set_calibration p a b).2.divetime =
      p.divetime ∧
    (reefnet_sensusultra_parser_set_calibration p a b).2.maxdepth =
      p.maxdepth ∧
    reefnet_sensusultra_parser_get_field
        (reefnet_sensusultra_parser_set_calibration p a b).2
        FieldType.maxdepth true =
      (DcStatus.success, (reefnet_sensusultra_parser_set_calibration p a b).2,
       some (FieldValue.dbl (((p.maxdepth : ℚ) * BAR / 1000 - a) / b))) ∧
    (reefnet_sensusultra_parser_get_field
        (reefnet_sensusultra_parser_set_calibration p a b).2
        FieldType.divetime true).2.2 = some (FieldValue.uint p.divetime) := by
  refine ⟨hc, rfl, rfl, ?_, ?_⟩
  · rw [get_field_spec,
      if_neg (show ¬ (reefnet_sensusultra_parser_set_calibration
        p a b).2.data.length < 20 from by
          simp only [reefnet_sensusultra_parser_set_calibration]
          omega),
      cacheFill_cached _ (show (reefnet_sensusultra_parser_set_calibration
        p a b).2.cached = true from hc)]
    rfl
  · rw [get_field_spec,
      if_neg (show ¬ (reefnet_sensusultra_parser_set_calibration
        p a b).2.data.length < 20 from by
          simp only [reefnet_sensusultra_parser_set_calibration]
          omega),
      cacheFill_cached _ (show (reefnet_sensusultra_parser_set_calibration
        p a b).2.cached = true from hc)]
    rfl

/-- C10 witness: on the scanned threshold fixture (raw maxdepth 200,
divetime 10), set_calibration(1, 2) followed by MAX_DEPTH yields
(200 * 100000 / 1000 - 1) / 2 = 19999 / 2 with no re-scan, and DIVE_TIME
still yields 10. -/
theorem c10_set_calibration_keeps_cache_witness :
    (reefnet_sensusultra_parser_get_field
        (reefnet_sensusultra_parser_set_calibration pCached 1 2).2
        FieldType.maxdepth true).2.2 =
      some (FieldValue.dbl (19999 / 2)) ∧
    (reefnet_sensusultra_parser_get_field
        (reefnet_sensusultra_parser_set_calibration pCached 1 2).2
        FieldType.divetime true).2.2 = some (FieldValue.uint 10) := by
  have h := c10_set_calibration_keeps_cache pCached 1 2 (by decide) (by decide)
  constructor
  · simp only [h.2.2.2.1]
    rw [show pCached.maxdepth = 200 from by decide]
    norm_num [BAR]
  · rw [h.2.2.2.2, show pCached.divetime = 10 from by decide]

/-- C2 counterexample: in a record whose interval field is 0 (with two
sample units), the emitted time values do not strictly increase: the first
and the second TIME emissions (list positions 0 and 3) both carry 0, because
the source advances time by time += interval. -/
theorem c2_time_not_strict_counterexample :
    (reefnet_sensusultra_parser_samples_foreach
        (reefnet_sensusultra_parser_set_data wCal bufZeroInterval).2).2.get? 0 =
      some (SampleEvent.time 0) ∧
    (reefnet_sensusultra_parser_samples_foreach
        (reefnet_sensusultra_parser_set_data wCal bufZeroInterval).2).2.get? 3 =
      some (SampleEvent.time 0) := by
  refine ⟨by decide, by decide⟩

/-- C2 (amended): for every record found by samples_foreach (first header
sentinel at m, with its 16-byte header in bounds), the k-th decoded 4-byte
unit (k from 0) emits exactly three callbacks in order TIME, TEMPERATURE,
DEPTH; the TIME value is (k+1) * interval as a uint32 — so it starts at the
record's interval (2-byte LE at m+8) and advances by exactly interval each
sample, strictly increasing only when the interval is nonzero; TEMPERATURE
is raw/100 - 273.15 for the 2-byte LE raw at the unit start and DEPTH is
(raw * BAR / 1000 - atmospheric) / hydrostatic for the 2-byte LE raw at
unit start + 2. -/
theorem c2_samples_emission (p : SensusParser) (m : ℕ)
    (hm : findHeader p.data 0 = some m) (hfit : m + 16 ≤ p.data.length) :
    reefnet_sensusultra_parser_samples_foreach p =
      (DcStatus.success,
       (List.range (unitOffsets p.data (m + 16)).length).flatMap fun k =>
         [SampleEvent.time
            ((k + 1) * array_uint16_le p.data (m + 8) % 2 ^ 32),
          SampleEvent.temperature
            ((array_uint16_le p.data (m + 16 + 4 * k) : ℚ) / 100 -
              27315 / 100),
          SampleEvent.depth
            (((array_uint16_le p.data (m + 16 + 4 * k + 2) : ℚ) * BAR /
                1000 - p.atmospheric) / p.hydrostatic)]) := by
  have h := outerScan_spec p.data p.atmospheric p.hydrostatic 0
  simp only [hm] at h
  rw [if_neg (by omega)] at h
  show outerScan p.data p.atmospheric p.hydrostatic 0 = _
  rw [h, sampleLoop_spec]
  refine congrArg _ (congrArg _ (funext fun k => ?_))
  simp only [Nat.zero_add]

/-- C2 witness: on the two-unit record fixture (interval 10, units (1, 2)
and (3, 4), calibration (0, 1)) the emissions are TIME 10, TEMPERATURE
1/100 - 273.15, DEPTH 200, TIME 20, TEMPERATURE 3/100 - 273.15, DEPTH 400,
in that order. -/
theorem c2_samples_emission_witness :
    reefnet_sensusultra_parser_samples_foreach pSamples =
      (DcStatus.success,
       [SampleEvent.time 10, SampleEvent.temperature (-13657 / 50),
        SampleEvent.depth 200, SampleEvent.time 20,
        SampleEvent.temperature (-6828 / 25), SampleEvent.depth 400]) := by
  rw [c2_samples_emission pSamples 0 (by decide) (by decide),
    show unitOffsets pSamples.data (0 + 16) = [16, 20] from by decide,
    show List.range ([16, 20] : List ℕ).length = [0, 1] from by decide]
  simp only [List.flatMap_cons, List.flatMap_nil, List.cons_append,
    List.nil_append, List.append_nil]
  rw [show (0 + 1) * array_uint16_le pSamples.data (0 + 8) % 2 ^ 32 = 10
      from by decide,
    show (1 + 1) * array_uint16_le pSamples.data (0 + 8) % 2 ^ 32 = 20
      from by decide,
    show array_uint16_le pSamples.data (0 + 16 + 4 * 0) = 1 from by decide,
    show array_uint16_le pSamples.data (0 + 16 + 4 * 0 + 2) = 2
      from by decide,
    show array_uint16_le pSamples.data (0 + 16 + 4 * 1) = 3 from by decide,
    show array_uint16_le pSamples.data (0 + 16 + 4 * 1 + 2) = 4
      from by decide,
    show pSamples.atmospheric = (0 : ℚ) from rfl,
    show pSamples.hydrostatic = (1 : ℚ) from rfl]
  norm_num [BAR]

end Reefnet
